import Mathlib

/-!
Shallow embedding of the secrets-resolution and configuration-bootstrap
layer of the repository (src/app/secrets_manager.py, src/app/config.py)
and of the item route handler (src/app/api/routes.py).

Modelling conventions:
* Python values that can flow through the resolver (`Any`) are modelled by
  the `Json` type below; environment variables are a partial map
  `String → Option String`.
* The remote store (AWS Secrets Manager, reached through `boto3`) is
  external: it is modelled as an oracle that, for a secret name and the
  index of the network call, yields either a `ClientError` code or a
  response payload.  `json.loads` is Python-library behaviour, so a
  `SecretString` payload is modelled directly by the outcome of decoding
  it: either a decode failure or the decoded `Json` value.
* `functools.lru_cache(maxsize=32)` on `SecretsManager.get_secret` is
  modelled by explicit state passing: a most-recent-first association
  list bounded at 32 entries, together with a log of the secret names for
  which an underlying network call was performed, in order.  A cache hit
  moves the entry to the front; a successful miss inserts at the front
  and drops beyond 32 entries; an exception caches nothing (Python's
  `lru_cache` does not cache raised exceptions).
* Python exceptions are modelled with `Except`; the exception classes
  that the source distinguishes (`ValueError`, `PermissionError`,
  re-raised `ClientError`, and the `AttributeError` raised by calling
  `.get` on a non-dict) form `PyError`.
-/

/-- Decoded JSON values, the result of `json.loads` on a `SecretString`. -/
inductive Json where
  | null : Json
  | bool (b : Bool) : Json
  | num (n : Int) : Json
  | str (s : String) : Json
  | arr (elems : List Json) : Json
  | obj (fields : List (String × Json)) : Json
deriving Repr

/-- Error codes reported by the remote store via `botocore`'s
`ClientError` (`e.response["Error"]["Code"]`). -/
inductive StoreError where
  | resourceNotFound : StoreError
  | accessDenied : StoreError
  | other (code : String) : StoreError
deriving Repr, DecidableEq

/-- Response of a successful `client.get_secret_value` call: either a
`SecretString` (carried as the outcome of `json.loads` on its text) or a
`SecretBinary` payload. -/
inductive StoreResponse where
  | secretString (decoded : Except Unit Json) : StoreResponse
  | secretBinary : StoreResponse
deriving Repr

/-- The Python exceptions that `secrets_manager.py` raises or re-raises. -/
inductive PyError where
  | valueError (msg : String) : PyError
  | permissionError (msg : String) : PyError
  | clientError (code : String) : PyError
  | attributeError (msg : String) : PyError
deriving Repr, DecidableEq

/-- State of the `lru_cache(maxsize=32)` on `SecretsManager.get_secret`:
the cached entries, most recently used first, and the log of secret
names for which an underlying network call was made, in order. -/
structure CacheState where
  cache : List (String × Json)
  log : List String
deriving Repr

/-- The process environment: `os.environ` / `os.path.exists` state and
the external services.  `ctor` is `some e` when constructing the global
`SecretsManager` (the `boto3.client` call) raises `e`; `store name i`
is the outcome of the `i`-th underlying network call of the process when
it asks for secret `name`; `marker` is whether the EC2 host-identity
marker file `/var/lib/cloud/instance` exists. -/
structure World where
  env : String → Option String
  ctor : Option PyError
  store : String → Nat → Except StoreError StoreResponse
  marker : Bool

/-- The body of `SecretsManager.get_secret` without its `lru_cache`
decorator: translate a store response for `secret_name` into either the
decoded secret dict or the exception the Python code raises.
Mirrors src/app/secrets_manager.py lines 42-59. -/
def get_secret_core (resp : Except StoreError StoreResponse) (secret_name : String) :
    Except PyError Json :=
  match resp with
  | .ok (.secretString (.ok j)) => .ok j
  | .ok (.secretString (.error _)) =>
      .error (.valueError "Expecting value: JSON decode error")
  | .ok .secretBinary =>
      .error (.valueError ("Binary secret " ++ secret_name ++ " is not supported"))
  | .error .resourceNotFound =>
      .error (.valueError ("Secret " ++ secret_name ++ " not found"))
  | .error .accessDenied =>
      .error (.permissionError ("Access denied to secret " ++ secret_name))
  | .error (.other code) => .error (.clientError code)

/-- `SecretsManager.get_secret` with its `@lru_cache(maxsize=32)`:
a hit returns the cached dict (moving it to the front, no network call);
a miss performs one network call, caching the result only on success. -/
def get_secret (w : World) (s : CacheState) (secret_name : String) :
    Except PyError Json × CacheState :=
  match s.cache.find? (fun p => p.1 == secret_name) with
  | some p =>
      (.ok p.2,
       { s with cache := (secret_name, p.2) :: s.cache.filter (fun q => q.1 != secret_name) })
  | none =>
      match get_secret_core (w.store secret_name s.log.length) secret_name with
      | .ok j =>
          (.ok j,
           { cache := ((secret_name, j) :: s.cache).take 32, log := s.log ++ [secret_name] })
      | .error e => (.error e, { s with log := s.log ++ [secret_name] })

/-- Python `dict.get(key, default)` on the decoded secret object. -/
def dict_get (fields : List (String × Json)) (key : String) (default : Json) : Json :=
  match fields.find? (fun p => p.1 == key) with
  | some p => p.2
  | none => default

/-- `SecretsManager.get_secret_value`: fetch the secret dict and read one
key.  Only `ValueError` and `PermissionError` are caught; `secret.get`
on a non-dict raises `AttributeError`, which escapes, and any other
exception from `get_secret` escapes too.
Mirrors src/app/secrets_manager.py lines 61-76. -/
def get_secret_value (w : World) (s : CacheState) (secret_name key : String)
    (default : Json) : Except PyError Json × CacheState :=
  match get_secret w s secret_name with
  | (.ok (.obj fields), s') => (.ok (dict_get fields key default), s')
  | (.ok _, s') => (.error (.attributeError "object has no attribute get"), s')
  | (.error (.valueError _), s') => (.ok default, s')
  | (.error (.permissionError _), s') => (.ok default, s')
  | (.error e, s') => (.error e, s')

/-- The remote-store part of `get_app_secret` (everything after the
environment-override check): resolve the group name from
`APP_SECRETS_NAME` (default `"FastAPIAppSecrets"`), then
`get_secrets_manager().get_secret_value(...)` inside
`try ... except Exception: return default`. -/
def get_app_secret_remote (w : World) (s : CacheState) (key : String) (default : Json) :
    Json × CacheState :=
  match w.ctor with
  | some _ => (default, s)
  | none =>
      match get_secret_value w s ((w.env "APP_SECRETS_NAME").getD "FastAPIAppSecrets")
          key default with
      | (.ok v, s') => (v, s')
      | (.error _, s') => (default, s')

/-- `get_app_secret`: check the environment variable `key.upper()` first
(a non-empty value is returned immediately, with no store interaction),
then fall through to the remote store.
Mirrors src/app/secrets_manager.py lines 95-117. -/
def get_app_secret (w : World) (s : CacheState) (key : String) (default : Json) :
    Json × CacheState :=
  match w.env key.toUpper with
  | some v => if v = "" then get_app_secret_remote w s key default else (.str v, s)
  | none => get_app_secret_remote w s key default

/-- `get_deployment_secret`: resolve the group name from
`DEPLOYMENT_SECRETS_NAME` (default `"FastAPIDeploymentSecrets"`) and call
`get_secret_value` inside `try ... except Exception: return default`.
There is no per-key environment-variable check on this path.
Mirrors src/app/secrets_manager.py lines 119-133. -/
def get_deployment_secret (w : World) (s : CacheState) (key : String) (default : Json) :
    Json × CacheState :=
  match w.ctor with
  | some _ => (default, s)
  | none =>
      match get_secret_value w s
          ((w.env "DEPLOYMENT_SECRETS_NAME").getD "FastAPIDeploymentSecrets") key default with
      | (.ok v, s') => (v, s')
      | (.error _, s') => (default, s')

/-- The `check_ec2_environment` before-validator on
`Settings.use_secrets_manager`: `True` when the marker file exists,
otherwise whether `os.getenv("USE_SECRETS_MANAGER", str(v)).lower()` is
one of `"true"`, `"1"`, `"yes"`.  `v` is passed already stringified.
Mirrors src/app/config.py lines 32-40. -/
def check_ec2_environment (marker : Bool) (override : Option String) (v : String) : Bool :=
  if marker then true
  else ((override.getD v).toLower ∈ (["true", "1", "yes"] : List String))

/-- The route handler's error response (`fastapi.HTTPException`). -/
structure HTTPExc where
  status_code : Nat
  detail : String
deriving Repr, DecidableEq

/-- The JSON body returned by `get_item` on success. -/
structure ItemBody where
  id : Int
  name : String
  version : String
  api_version : String
deriving Repr, DecidableEq

/-- `GET /api/v1/items/{item_id}` handler: 404 for `item_id > 100`, else
the echoed item.  Mirrors src/app/api/routes.py lines 21-25. -/
def get_item (item_id : Int) : Except HTTPExc ItemBody :=
  if item_id > 100 then .error ⟨404, "Item not found"⟩
  else .ok ⟨item_id, "Item " ++ toString item_id, "1.0", "v1"⟩

/-- Run a sequence of `get_secret` calls, threading the cache state:
models several `fetch_group` calls made within one process. -/
def run_fetches (w : World) (s : CacheState) : List String → CacheState
  | [] => s
  | n :: rest => run_fetches w (get_secret w s n).2 rest

/-- The fields of the `Settings` object the claims are about.  `objId`
models Python object identity: each `Settings()` construction yields a
fresh id, so two references are the same object exactly when their
`objId`s agree. -/
structure Settings where
  objId : Nat
  use_secrets_manager : Bool
  db_password : Json
  jwt_secret : Json
  api_keys : Json
deriving Repr

/-- A pydantic `Optional[str]` field sourced from the environment:
the env value when set, else `None`. -/
def env_opt_field (w : World) (name : String) : Json :=
  match w.env name with
  | some v => .str v
  | none => .null

/-- `Settings()` construction (pydantic `BaseSettings`): secret fields
come from the environment or default to `None`; `use_secrets_manager`
goes through the `check_ec2_environment` before-validator, whose raw
default is `False` (stringified `"False"`) when the env does not set the
field.  `objId` is the identity of the freshly constructed object. -/
def settings_init (w : World) (objId : Nat) : Settings :=
  { objId := objId
  , use_secrets_manager :=
      check_ec2_environment w.marker (w.env "USE_SECRETS_MANAGER") "False"
  , db_password := env_opt_field w "DB_PASSWORD"
  , jwt_secret := env_opt_field w "JWT_SECRET"
  , api_keys := env_opt_field w "API_KEYS" }

/-- `Settings.load_from_secrets_manager`: when remote-secrets mode is
enabled, overwrite the three sensitive fields via `get_app_secret`,
passing the current field value as the default.
Mirrors src/app/config.py lines 42-58. -/
def load_from_secrets_manager (w : World) (st : Settings) (s : CacheState) :
    Settings × CacheState :=
  if st.use_secrets_manager then
    let r1 := get_app_secret w s "db_password" st.db_password
    let r2 := get_app_secret w r1.2 "jwt_secret" st.jwt_secret
    let r3 := get_app_secret w r2.2 "api_keys" st.api_keys
    ({ st with db_password := r1.1, jwt_secret := r2.1, api_keys := r3.1 }, r3.2)
  else (st, s)

/-- Process-wide state carried by the settings accessor: the
`@lru_cache()` cell of `get_settings`, the next fresh object identity,
and the secrets cache shared with the resolver. -/
structure ProcState where
  settingsCache : Option Settings
  nextId : Nat
  secrets : CacheState

/-- `get_settings` (src/app/config.py lines 61-65): construct and
secret-load a `Settings` on the first call, then return the cached
instance unchanged on every later call. -/
def get_settings (w : World) (ps : ProcState) : Settings × ProcState :=
  match ps.settingsCache with
  | some st => (st, ps)
  | none =>
      let st0 := settings_init w ps.nextId
      let r := load_from_secrets_manager w st0 ps.secrets
      (r.1, { settingsCache := some r.1, nextId := ps.nextId + 1, secrets := r.2 })

/-! Concrete worlds used to evaluate the definitions on explicit inputs. -/

/-- The cache state at process start: empty cache, no network calls. -/
def initCache : CacheState := { cache := [], log := [] }

/-- An empty process environment. -/
def emptyEnv : String → Option String := fun _ => none

/-- A store that answers every request with the same fixed secret object. -/
def storeFixed (fields : List (String × Json)) :
    String → Nat → Except StoreError StoreResponse :=
  fun _ _ => .ok (.secretString (.ok (.obj fields)))

/-- World in which constructing the `boto3` client itself raises. -/
def wCtorFail : World :=
  { env := emptyEnv, ctor := some (.clientError "NoRegionError")
  , store := fun _ _ => .error .resourceNotFound, marker := false }

/-- World whose store always fails with a `ClientError` code that
`get_secret` re-raises unchanged. -/
def wThrottle : World :=
  { env := emptyEnv, ctor := none
  , store := fun _ _ => .error (.other "ThrottlingException"), marker := false }

/-- World whose store always reports the secret as missing. -/
def wNotFound : World :=
  { env := emptyEnv, ctor := none
  , store := fun _ _ => .error .resourceNotFound, marker := false }

/-- World whose store always returns a `SecretBinary` payload. -/
def wBinary : World :=
  { env := emptyEnv, ctor := none
  , store := fun _ _ => .ok .secretBinary, marker := false }

/-- World whose store returns a blob that is valid JSON text but not a
string-keyed object (a two-element array). -/
def wArr : World :=
  { env := emptyEnv, ctor := none
  , store := fun _ _ => .ok (.secretString (.ok (.arr [.num 1, .num 2]))), marker := false }

/-- A store holding `{"jwt_secret": "xyz"}` under every name. -/
def storeJwt : String → Nat → Except StoreError StoreResponse :=
  storeFixed [("jwt_secret", .str "xyz")]

/-- World with the per-key environment override `JWT_SECRET=abc` set and
a reachable store holding `{"jwt_secret": "xyz"}`. -/
def wOverride : World :=
  { env := fun n => if n = "JWT_SECRET" then some "abc" else none
  , ctor := none, store := storeJwt, marker := false }

/-- Same store and client as `wOverride` but with an empty environment. -/
def wNoOverride : World :=
  { env := emptyEnv, ctor := none, store := storeJwt, marker := false }

/-- A store distinguishing the non-prefixed and `FastAPI`-prefixed group
names, to observe which group the resolver queries. -/
def storeNames : String → Nat → Except StoreError StoreResponse := fun n _ =>
  if n = "FastAPIAppSecrets" then .ok (.secretString (.ok (.obj [("k", .str "appValue")])))
  else if n = "FastAPIDeploymentSecrets" then
    .ok (.secretString (.ok (.obj [("k", .str "deployValue")])))
  else .error .resourceNotFound

/-- World with an empty environment over `storeNames`. -/
def wNames : World :=
  { env := emptyEnv, ctor := none, store := storeNames, marker := false }

/-- World whose store always succeeds with an empty secret object. -/
def wAllOk : World :=
  { env := emptyEnv, ctor := none, store := storeFixed [], marker := false }

/-- World whose store fails the first network call of the process and
succeeds afterwards with `{"k": "v"}`. -/
def wFailThenOk : World :=
  { env := emptyEnv, ctor := none
  , store := fun _ t =>
      if t = 0 then .error (.other "RequestTimeout")
      else .ok (.secretString (.ok (.obj [("k", .str "v")])))
  , marker := false }

/-- Thirty-three distinct group names `g0`, …, `g32`. -/
def names33 : List String := (List.range 33).map (fun i => "g" ++ toString i)

/-! Helper lemmas shared by the claim theorems. -/

theorem jwt_secret_toUpper : "jwt_secret".toUpper = "JWT_SECRET" := by
  simp only [String.toUpper, String.map_eq]
  decide

theorem key_k_toUpper : "k".toUpper = "K" := by
  simp only [String.toUpper, String.map_eq]
  decide

theorem get_secret_store_congr (w w' : World) (hs : w.store = w'.store)
    (s : CacheState) (n : String) : get_secret w s n = get_secret w' s n := by
  unfold get_secret
  rw [hs]

theorem get_secret_value_store_congr (w w' : World) (hs : w.store = w'.store)
    (s : CacheState) (n k : String) (d : Json) :
    get_secret_value w s n k d = get_secret_value w' s n k d := by
  unfold get_secret_value
  rw [get_secret_store_congr w w' hs]

theorem get_secret_value_state (w : World) (s : CacheState) (n k : String) (d : Json) :
    (get_secret_value w s n k d).2 = (get_secret w s n).2 := by
  unfold get_secret_value
  split <;> simp_all

theorem get_secret_miss_log (w : World) (s : CacheState) (n : String)
    (h : s.cache.find? (fun p => p.1 == n) = none) :
    (get_secret w s n).2.log = s.log ++ [n] := by
  unfold get_secret
  rw [h]
  cases get_secret_core (w.store n s.log.length) n <;> rfl

theorem get_app_secret_remote_state (w : World) (s : CacheState) (key : String) (d : Json)
    (hc : w.ctor = none) :
    (get_app_secret_remote w s key d).2 =
      (get_secret w s ((w.env "APP_SECRETS_NAME").getD "FastAPIAppSecrets")).2 := by
  unfold get_app_secret_remote
  rw [hc]
  have hst := get_secret_value_state w s
    ((w.env "APP_SECRETS_NAME").getD "FastAPIAppSecrets") key d
  rcases hv : get_secret_value w s ((w.env "APP_SECRETS_NAME").getD "FastAPIAppSecrets") key d
    with ⟨r, s2⟩
  rw [hv] at hst
  cases r <;> simpa using hst

theorem get_deployment_secret_state (w : World) (s : CacheState) (key : String) (d : Json)
    (hc : w.ctor = none) :
    (get_deployment_secret w s key d).2 =
      (get_secret w s ((w.env "DEPLOYMENT_SECRETS_NAME").getD "FastAPIDeploymentSecrets")).2 := by
  unfold get_deployment_secret
  rw [hc]
  have hst := get_secret_value_state w s
    ((w.env "DEPLOYMENT_SECRETS_NAME").getD "FastAPIDeploymentSecrets") key d
  rcases hv : get_secret_value w s
      ((w.env "DEPLOYMENT_SECRETS_NAME").getD "FastAPIDeploymentSecrets") key d
    with ⟨r, s2⟩
  rw [hv] at hst
  cases r <;> simpa using hst

/-- C7: the remote-secrets-enabled flag is true exactly when the
host-identity marker file exists, or the `USE_SECRETS_MANAGER` override
(falling back to the field's stringified raw value when unset) is,
case-insensitively, `"true"`, `"1"` or `"yes"`; otherwise it is false. -/
theorem use_secrets_manager_flag_iff (marker : Bool) (override : Option String) (v : String) :
    check_ec2_environment marker override v = true ↔
      (marker = true ∨ (override.getD v).toLower = "true" ∨
       (override.getD v).toLower = "1" ∨ (override.getD v).toLower = "yes") := by
  unfold check_ec2_environment
  cases marker <;> simp

/-- C9: the item route fails with HTTP 404 and detail `"Item not found"`
exactly when the id exceeds 100; for every id at most 100 (including 100,
0 and negative ids) it succeeds with a body echoing the id. -/
theorem item_route_spec (item_id : Int) :
    (get_item item_id = .error ⟨404, "Item not found"⟩ ↔ item_id > 100) ∧
    (item_id ≤ 100 → ∃ body, get_item item_id = .ok body ∧ body.id = item_id) := by
  constructor
  · constructor
    · intro h
      by_contra hgt
      simp [get_item, hgt] at h
    · intro h
      simp [get_item, h]
  · intro h
    have hn : ¬ item_id > 100 := by omega
    refine ⟨⟨item_id, "Item " ++ toString item_id, "1.0", "v1"⟩, ?_, rfl⟩
    simp [get_item, hn]

/-- Witness for C9 at the boundary id 100: the handler succeeds and
echoes the id. -/
theorem item_route_spec_witness :
    ∃ body, get_item 100 = .ok body ∧ body.id = 100 :=
  (item_route_spec 100).2 (by decide)

/-- C6: two sequential calls to `get_settings` return the identical
cached `Settings` instance, and the second call neither constructs a new
instance nor touches the secrets cache (the process state is unchanged). -/
theorem get_settings_singleton (w : World) (ps : ProcState) :
    get_settings w (get_settings w ps).2 = ((get_settings w ps).1, (get_settings w ps).2) := by
  cases hc : ps.settingsCache with
  | some st => simp [get_settings, hc]
  | none => simp [get_settings, hc]

/-- Counterexample to C1: with the override `JWT_SECRET=abc` set,
`get_deployment_secret` does not return the override — it performs a
store call and returns the store's value `"xyz"`. -/
theorem deployment_ignores_override_cex :
    (get_deployment_secret wOverride initCache "jwt_secret" Json.null).1 = Json.str "xyz" ∧
    Json.str "xyz" ≠ Json.str "abc" ∧
    (get_deployment_secret wOverride initCache "jwt_secret" Json.null).2.log =
      ["FastAPIDeploymentSecrets"] := by
  refine ⟨rfl, ?_, rfl⟩
  intro h
  injection h with h
  exact absurd h (by decide)

/-- C1 amended: a non-empty environment override named `key.upper()` is
returned verbatim, with no store interaction, on the application-secret
path only; an empty-string override behaves there as if unset and falls
through to the remote store; the deployment-secret path never consults
the per-key override (its result is unchanged by any change to the
environment that preserves `DEPLOYMENT_SECRETS_NAME`). -/
theorem env_override_app_path_only :
    (∀ (w : World) (s : CacheState) (key : String) (d : Json) (v : String),
       w.env key.toUpper = some v → v ≠ "" →
       get_app_secret w s key d = (.str v, s)) ∧
    (∀ (w : World) (s : CacheState) (key : String) (d : Json),
       w.env key.toUpper = some "" →
       get_app_secret w s key d = get_app_secret_remote w s key d) ∧
    (∀ (w : World) (s : CacheState) (key : String) (d : Json),
       w.env key.toUpper = none →
       get_app_secret w s key d = get_app_secret_remote w s key d) ∧
    (∀ (w w' : World) (s : CacheState) (key : String) (d : Json),
       w.store = w'.store → w.ctor = w'.ctor →
       w.env "DEPLOYMENT_SECRETS_NAME" = w'.env "DEPLOYMENT_SECRETS_NAME" →
       get_deployment_secret w s key d = get_deployment_secret w' s key d) := by
  refine ⟨?_, ?_, ?_, ?_⟩
  · intro w s key d v h hne
    simp [get_app_secret, h, hne]
  · intro w s key d h
    simp [get_app_secret, h]
  · intro w s key d h
    simp [get_app_secret, h]
  · intro w w' s key d hs hc henv
    unfold get_deployment_secret
    rw [hc, henv, get_secret_value_store_congr w w' hs]

/-- Witness for C1 amended: in `wOverride` (override `JWT_SECRET=abc`)
the application path returns `"abc"` untouched with no state change,
and the deployment path gives the same result as in `wNoOverride`,
which differs from `wOverride` only in the per-key override. -/
theorem env_override_app_path_only_witness :
    get_app_secret wOverride initCache "jwt_secret" Json.null = (.str "abc", initCache) ∧
    get_deployment_secret wOverride initCache "jwt_secret" Json.null =
      get_deployment_secret wNoOverride initCache "jwt_secret" Json.null :=
  ⟨env_override_app_path_only.1 wOverride initCache "jwt_secret" Json.null "abc"
      (by rw [jwt_secret_toUpper]; decide) (by decide),
   env_override_app_path_only.2.2.2 wOverride wNoOverride initCache "jwt_secret" Json.null
      rfl rfl rfl⟩

/-- C2: the resolver never lets an exception escape.  When client
construction fails, both paths return the default with no store
interaction; when the remote fetch raises any error at all, both paths
catch it and return the default. -/
theorem resolver_never_raises :
    (∀ (w : World) (s : CacheState) (key : String) (d : Json) (e : PyError),
       w.ctor = some e →
       get_app_secret_remote w s key d = (d, s) ∧
       get_deployment_secret w s key d = (d, s)) ∧
    (∀ (w : World) (s : CacheState) (key : String) (d : Json) (e : PyError) (s' : CacheState),
       w.ctor = none →
       get_secret w s ((w.env "APP_SECRETS_NAME").getD "FastAPIAppSecrets") = (.error e, s') →
       get_app_secret_remote w s key d = (d, s')) ∧
    (∀ (w : World) (s : CacheState) (key : String) (d : Json) (e : PyError) (s' : CacheState),
       w.ctor = none →
       get_secret w s ((w.env "DEPLOYMENT_SECRETS_NAME").getD "FastAPIDeploymentSecrets") =
         (.error e, s') →
       get_deployment_secret w s key d = (d, s')) := by
  refine ⟨?_, ?_, ?_⟩
  · intro w s key d e h
    constructor
    · simp [get_app_secret_remote, h]
    · simp [get_deployment_secret, h]
  · intro w s key d e s' hc hf
    unfold get_app_secret_remote
    rw [hc]
    unfold get_secret_value
    rw [hf]
    cases e <;> rfl
  · intro w s key d e s' hc hf
    unfold get_deployment_secret
    rw [hc]
    unfold get_secret_value
    rw [hf]
    cases e <;> rfl

/-- Counterexample to C3: when the store fails with a `ClientError` code
other than not-found or access-denied, `get_secret_value` does not
return the default — the error escapes to its caller. -/
theorem get_value_error_escapes_cex :
    (get_secret_value wThrottle initCache "G" "k" Json.null).1 =
      .error (.clientError "ThrottlingException") ∧
    (get_secret_value wThrottle initCache "G" "k" Json.null).1 ≠ .ok Json.null := by
  constructor
  · rfl
  · intro h
    rw [show (get_secret_value wThrottle initCache "G" "k" Json.null).1 =
        .error (.clientError "ThrottlingException") from rfl] at h
    exact Except.noConfusion h

/-- C3 amended: `get_secret_value` returns the value for the key when the
fetch succeeds with a string-keyed object containing it, the default when
the key is absent, and the default when the fetch fails with a
`ValueError` (group not found, undecodable or binary blob) or a
`PermissionError` (access denied); but any other failure — a re-raised
`ClientError` in particular — escapes to the caller. -/
theorem get_value_taxonomy :
    (∀ (w : World) (s : CacheState) (n k : String) (d : Json)
       (fields : List (String × Json)) (s' : CacheState) (p : String × Json),
       get_secret w s n = (.ok (.obj fields), s') →
       fields.find? (fun q => q.1 == k) = some p →
       get_secret_value w s n k d = (.ok p.2, s')) ∧
    (∀ (w : World) (s : CacheState) (n k : String) (d : Json)
       (fields : List (String × Json)) (s' : CacheState),
       get_secret w s n = (.ok (.obj fields), s') →
       fields.find? (fun q => q.1 == k) = none →
       get_secret_value w s n k d = (.ok d, s')) ∧
    (∀ (w : World) (s : CacheState) (n k : String) (d : Json) (m : String) (s' : CacheState),
       get_secret w s n = (.error (.valueError m), s') →
       get_secret_value w s n k d = (.ok d, s')) ∧
    (∀ (w : World) (s : CacheState) (n k : String) (d : Json) (m : String) (s' : CacheState),
       get_secret w s n = (.error (.permissionError m), s') →
       get_secret_value w s n k d = (.ok d, s')) ∧
    (∀ (w : World) (s : CacheState) (n k : String) (d : Json) (c : String) (s' : CacheState),
       get_secret w s n = (.error (.clientError c), s') →
       get_secret_value w s n k d = (.error (.clientError c), s')) := by
  refine ⟨?_, ?_, ?_, ?_, ?_⟩
  · intro w s n k d fields s' p h hf
    unfold get_secret_value
    rw [h]
    simp [dict_get, hf]
  · intro w s n k d fields s' h hf
    unfold get_secret_value
    rw [h]
    simp [dict_get, hf]
  · intro w s n k d m s' h
    unfold get_secret_value
    rw [h]
  · intro w s n k d m s' h
    unfold get_secret_value
    rw [h]
  · intro w s n k d c s' h
    unfold get_secret_value
    rw [h]

/-- Witness for C3 amended: a present key is read out of a fetched
group, a not-found failure degrades to the default, and an unclassified
`ClientError` escapes — each at an explicit world. -/
theorem get_value_taxonomy_witness :
    get_secret_value wNoOverride initCache "G" "jwt_secret" Json.null =
      (.ok (.str "xyz"),
       { cache := [("G", .obj [("jwt_secret", .str "xyz")])], log := ["G"] }) ∧
    get_secret_value wNotFound initCache "G" "k" (Json.str "fallback") =
      (.ok (.str "fallback"), { cache := [], log := ["G"] }) ∧
    get_secret_value wThrottle initCache "G" "k" Json.null =
      (.error (.clientError "ThrottlingException"), { cache := [], log := ["G"] }) :=
  ⟨get_value_taxonomy.1 wNoOverride initCache "G" "jwt_secret" Json.null
      [("jwt_secret", .str "xyz")]
      { cache := [("G", .obj [("jwt_secret", .str "xyz")])], log := ["G"] }
      ("jwt_secret", .str "xyz") rfl rfl,
   get_value_taxonomy.2.2.1 wNotFound initCache "G" "k" (Json.str "fallback")
      "Secret G not found" { cache := [], log := ["G"] } rfl,
   get_value_taxonomy.2.2.2.2 wThrottle initCache "G" "k" Json.null
      "ThrottlingException" { cache := [], log := ["G"] } rfl⟩

/-- Counterexample to C4: a blob that is valid JSON text but not a
string-keyed object — the array `[1, 2]` — is not rejected with an
`UnsupportedFormat` error; `get_secret` returns it as-is. -/
theorem nonobject_json_not_rejected_cex :
    (get_secret wArr initCache "G").1 = .ok (.arr [.num 1, .num 2]) := rfl

/-- C4 amended: on a cache miss, `get_secret` fails with a `ValueError`
(the not-found kind) when the store reports the group missing, with a
`PermissionError` when it reports access denied, with a `ValueError`
when the blob is binary or its text is not decodable JSON, propagates
any other store failure unchanged as a `ClientError` — and returns a
decodable JSON blob as-is even when it is not a string-keyed object. -/
theorem fetch_group_error_taxonomy :
    (∀ (w : World) (s : CacheState) (n : String),
       s.cache.find? (fun p => p.1 == n) = none →
       w.store n s.log.length = .error .resourceNotFound →
       (get_secret w s n).1 = .error (.valueError ("Secret " ++ n ++ " not found"))) ∧
    (∀ (w : World) (s : CacheState) (n : String),
       s.cache.find? (fun p => p.1 == n) = none →
       w.store n s.log.length = .error .accessDenied →
       (get_secret w s n).1 = .error (.permissionError ("Access denied to secret " ++ n))) ∧
    (∀ (w : World) (s : CacheState) (n c : String),
       s.cache.find? (fun p => p.1 == n) = none →
       w.store n s.log.length = .error (.other c) →
       (get_secret w s n).1 = .error (.clientError c)) ∧
    (∀ (w : World) (s : CacheState) (n : String),
       s.cache.find? (fun p => p.1 == n) = none →
       w.store n s.log.length = .ok .secretBinary →
       (get_secret w s n).1 =
         .error (.valueError ("Binary secret " ++ n ++ " is not supported"))) ∧
    (∀ (w : World) (s : CacheState) (n : String) (u : Unit),
       s.cache.find? (fun p => p.1 == n) = none →
       w.store n s.log.length = .ok (.secretString (.error u)) →
       (get_secret w s n).1 = .error (.valueError "Expecting value: JSON decode error")) ∧
    (∀ (w : World) (s : CacheState) (n : String) (j : Json),
       s.cache.find? (fun p => p.1 == n) = none →
       w.store n s.log.length = .ok (.secretString (.ok j)) →
       (get_secret w s n).1 = .ok j) := by
  refine ⟨?_, ?_, ?_, ?_, ?_, ?_⟩ <;>
    first
    | (intro w s n hf hs
       simp [get_secret, hf, hs, get_secret_core])
    | (intro w s n x hf hs
       simp [get_secret, hf, hs, get_secret_core])

/-- Witness for C4 amended: the not-found, binary and
valid-but-non-object cases each evaluated at an explicit world. -/
theorem fetch_group_error_taxonomy_witness :
    (get_secret wNotFound initCache "G").1 =
      .error (.valueError ("Secret " ++ "G" ++ " not found")) ∧
    (get_secret wBinary initCache "G").1 =
      .error (.valueError ("Binary secret " ++ "G" ++ " is not supported")) ∧
    (get_secret wArr initCache "G").1 = .ok (.arr [.num 1, .num 2]) :=
  ⟨fetch_group_error_taxonomy.1 wNotFound initCache "G" rfl rfl,
   fetch_group_error_taxonomy.2.2.2.1 wBinary initCache "G" rfl rfl,
   fetch_group_error_taxonomy.2.2.2.2.2 wArr initCache "G" (.arr [.num 1, .num 2]) rfl rfl⟩

/-- Witness for C2: with a failing client constructor the app path
returns the default untouched; with a store that raises a re-raised
`ClientError` the deployment path still returns the default. -/
theorem resolver_never_raises_witness :
    get_app_secret_remote wCtorFail initCache "k" Json.null = (Json.null, initCache) ∧
    get_deployment_secret wThrottle initCache "k" Json.null =
      (Json.null, { cache := [], log := ["FastAPIDeploymentSecrets"] }) :=
  ⟨(resolver_never_raises.1 wCtorFail initCache "k" Json.null
      (.clientError "NoRegionError") rfl).1,
   resolver_never_raises.2.2 wThrottle initCache "k" Json.null
      (.clientError "ThrottlingException")
      { cache := [], log := ["FastAPIDeploymentSecrets"] } rfl rfl⟩

/-- Counterexample to C8: with `APP_SECRETS_NAME` and
`DEPLOYMENT_SECRETS_NAME` unset, the groups actually queried (as the
network-call log shows) are `"FastAPIAppSecrets"` and
`"FastAPIDeploymentSecrets"`, not `"AppSecrets"` and
`"DeploymentSecrets"`. -/
theorem default_group_names_cex :
    (get_app_secret wNames initCache "k" Json.null).2.log = ["FastAPIAppSecrets"] ∧
    (get_deployment_secret wNames initCache "k" Json.null).2.log =
      ["FastAPIDeploymentSecrets"] ∧
    "FastAPIAppSecrets" ≠ "AppSecrets" ∧
    "FastAPIDeploymentSecrets" ≠ "DeploymentSecrets" := by
  refine ⟨?_, rfl, by decide, by decide⟩
  unfold get_app_secret
  rw [key_k_toUpper]
  rfl

/-- C8 amended: when `APP_SECRETS_NAME` is unset (and no per-key
override applies), the application path queries the remote group named
`"FastAPIAppSecrets"`; when `DEPLOYMENT_SECRETS_NAME` is unset, the
deployment path queries `"FastAPIDeploymentSecrets"`. -/
theorem default_group_names :
    (∀ (w : World) (s : CacheState) (key : String) (d : Json),
       w.env "APP_SECRETS_NAME" = none → w.env key.toUpper = none → w.ctor = none →
       s.cache.find? (fun p => p.1 == "FastAPIAppSecrets") = none →
       (get_app_secret w s key d).2.log = s.log ++ ["FastAPIAppSecrets"]) ∧
    (∀ (w : World) (s : CacheState) (key : String) (d : Json),
       w.env "DEPLOYMENT_SECRETS_NAME" = none → w.ctor = none →
       s.cache.find? (fun p => p.1 == "FastAPIDeploymentSecrets") = none →
       (get_deployment_secret w s key d).2.log = s.log ++ ["FastAPIDeploymentSecrets"]) := by
  constructor
  · intro w s key d hname hkey hctor hfind
    unfold get_app_secret
    rw [hkey, get_app_secret_remote_state w s key d hctor, hname]
    exact get_secret_miss_log w s "FastAPIAppSecrets" hfind
  · intro w s key d hname hctor hfind
    rw [get_deployment_secret_state w s key d hctor, hname]
    exact get_secret_miss_log w s "FastAPIDeploymentSecrets" hfind

/-- Witness for C8 amended: in the empty environment `wNames`, the two
paths log network calls for exactly the `FastAPI`-prefixed names. -/
theorem default_group_names_witness :
    (get_app_secret wNames initCache "k" Json.null).2.log =
      initCache.log ++ ["FastAPIAppSecrets"] ∧
    (get_deployment_secret wNames initCache "k" Json.null).2.log =
      initCache.log ++ ["FastAPIDeploymentSecrets"] :=
  ⟨default_group_names.1 wNames initCache "k" Json.null rfl
      (by rw [key_k_toUpper]; rfl) rfl rfl,
   default_group_names.2 wNames initCache "k" Json.null rfl rfl rfl⟩

/-- Counterexample to C5: the cache behind `fetch_group` is
`lru_cache(maxsize=32)`, so after 33 distinct group names the first one
is evicted: in a run fetching `g0 … g32` and then `g0` again, the
network-call log contains `g0` twice — the second `g0` call hits the
network again within one process lifetime. -/
theorem lru_eviction_cex :
    ((run_fetches wAllOk initCache (names33 ++ ["g0"])).log.filter
      (fun n => n == "g0")).length = 2 := by
  decide

/-- C5 amended: a successful `fetch_group` stores the decoded mapping in
an LRU cache bounded at 32 entries; while the entry is cached — in
particular on an immediately subsequent call with the same name — the
mapping is returned with no network call; only after eviction by 32
more-recently-used distinct names is the network call repeated. -/
theorem fetch_group_cache_spec :
    (∀ (w : World) (s : CacheState) (n : String) (p : String × Json),
       s.cache.find? (fun q => q.1 == n) = some p →
       (get_secret w s n).1 = .ok p.2 ∧ (get_secret w s n).2.log = s.log) ∧
    (∀ (w : World) (s : CacheState) (n : String) (j : Json) (s' : CacheState),
       get_secret w s n = (.ok j, s') →
       (get_secret w s' n).1 = .ok j ∧ (get_secret w s' n).2.log = s'.log) := by
  have hit : ∀ (w : World) (s : CacheState) (n : String) (p : String × Json),
      s.cache.find? (fun q => q.1 == n) = some p →
      (get_secret w s n).1 = .ok p.2 ∧ (get_secret w s n).2.log = s.log := by
    intro w s n p h
    constructor <;> simp [get_secret, h]
  refine ⟨hit, ?_⟩
  intro w s n j s' h
  have hfront : s'.cache.find? (fun q => q.1 == n) = some (n, j) := by
    unfold get_secret at h
    cases hf : s.cache.find? (fun q => q.1 == n) with
    | some p =>
        rw [hf] at h
        have hj : j = p.2 := by
          have := congrArg Prod.fst h
          simpa using this.symm
        have hs' : s'.cache = (n, p.2) :: s.cache.filter (fun q => q.1 != n) := by
          have := congrArg Prod.snd h
          simp at this
          rw [← this]
        rw [hs', hj]
        simp [List.find?]
    | none =>
        rw [hf] at h
        cases hc : get_secret_core (w.store n s.log.length) n with
        | ok j' =>
            rw [hc] at h
            have hj : j = j' := by
              have := congrArg Prod.fst h
              simpa using this.symm
            have hpair := congrArg Prod.snd h
            simp at hpair
            rw [hj, ← hpair]
            simp [List.find?]
        | error e =>
            rw [hc] at h
            exact absurd (congrArg Prod.fst h) (by simp)
  exact hit w s' n (n, j) hfront

/-- Witness for C5 amended: after one successful fetch of `"g"` against
`wAllOk`, an immediately repeated fetch returns the same mapping and
leaves the network-call log unchanged. -/
theorem fetch_group_cache_spec_witness :
    (get_secret wAllOk { cache := [("g", .obj [])], log := ["g"] } "g").1 = .ok (.obj []) ∧
    (get_secret wAllOk { cache := [("g", .obj [])], log := ["g"] } "g").2.log = ["g"] :=
  fetch_group_cache_spec.2 wAllOk initCache "g" (.obj [])
    { cache := [("g", .obj [])], log := ["g"] } rfl

/-- C10: a failed fetch is not cached.  On a cache miss whose network
call fails, the cache is left unchanged (only the call log grows); a
later call with the same name performs a fresh network call, and if the
store then succeeds the newly fetched mapping is returned. -/
theorem failed_fetch_not_cached :
    ∀ (w : World) (s : CacheState) (n : String) (e : PyError),
      s.cache.find? (fun p => p.1 == n) = none →
      (get_secret w s n).1 = .error e →
      (get_secret w s n).2.cache = s.cache ∧
      (get_secret w s n).2.log = s.log ++ [n] ∧
      (get_secret w (get_secret w s n).2 n).2.log = s.log ++ [n] ++ [n] ∧
      (∀ j : Json,
         get_secret_core (w.store n (s.log ++ [n]).length) n = .ok j →
         (get_secret w (get_secret w s n).2 n).1 = .ok j) := by
  intro w s n e hf herr
  have hcore : ∃ e', get_secret_core (w.store n s.log.length) n = .error e' := by
    unfold get_secret at herr
    rw [hf] at herr
    cases hc : get_secret_core (w.store n s.log.length) n with
    | ok j => rw [hc] at herr; exact absurd herr (by simp)
    | error e' => exact ⟨e', rfl⟩
  rcases hcore with ⟨e', hc⟩
  have hstate : (get_secret w s n).2 = { s with log := s.log ++ [n] } := by
    unfold get_secret
    rw [hf, hc]
  refine ⟨by rw [hstate], by rw [hstate], ?_, ?_⟩
  · rw [hstate]
    exact get_secret_miss_log w { s with log := s.log ++ [n] } n hf
  · intro j hok
    rw [hstate]
    unfold get_secret
    rw [hf, hok]

/-- Witness for C10: against `wFailThenOk` the first fetch of `"G"`
fails and caches nothing, and the retry performs a second network call
and returns the then-available mapping. -/
theorem failed_fetch_not_cached_witness :
    (get_secret wFailThenOk initCache "G").2.cache = initCache.cache ∧
    (get_secret wFailThenOk initCache "G").2.log = initCache.log ++ ["G"] ∧
    (get_secret wFailThenOk (get_secret wFailThenOk initCache "G").2 "G").2.log =
      initCache.log ++ ["G"] ++ ["G"] ∧
    (get_secret wFailThenOk (get_secret wFailThenOk initCache "G").2 "G").1 =
      .ok (.obj [("k", .str "v")]) := by
  have h := failed_fetch_not_cached wFailThenOk initCache "G"
    (.clientError "RequestTimeout") rfl rfl
  exact ⟨h.1, h.2.1, h.2.2.1, h.2.2.2 (.obj [("k", .str "v")]) rfl⟩
